import Mathlib

/-
Verification of the download service in app.py: URL validation, metadata
format filtering and sorting, and the download job controller with its
path-resolution fallback and cleanup behaviour.  Pure parts of the Python
code are embedded as Lean functions; the filesystem and the external
extraction engine are modelled explicitly as values threaded through the
job controller.
-/

namespace YtApp

/-! ## Python string primitives used by app.py -/

/-- Characters removed by the Python method str.strip with no argument,
restricted to the ASCII whitespace characters (all strings appearing in
this development are ASCII). -/
def pyWhitespace (c : Char) : Bool :=
  c == ' ' || c == '\t' || c == '\n' || c == '\r' || c == '\x0b' || c == '\x0c'

/-- Python str.strip: drop leading and trailing whitespace. -/
def pyStrip (s : String) : String :=
  ⟨((s.data.dropWhile pyWhitespace).reverse.dropWhile pyWhitespace).reverse⟩

/-- Python str.lstrip with argument ".": drop all leading dot characters. -/
def pyLstripDot (s : String) : String :=
  ⟨s.data.dropWhile (fun c => c == '.')⟩

/-- The filesystem-hostile characters of the character class in app.py
line 149: backslash, slash, asterisk, question mark, colon, double quote,
angle brackets and pipe. -/
def hostileChar (c : Char) : Bool :=
  c == '\\' || c == '/' || c == '*' || c == '?' || c == ':' || c == '"' ||
    c == '<' || c == '>' || c == '|'

/-- re.sub of that single-character class with an underscore replaces each
occurrence independently (app.py line 149). -/
def sanitizeTitle (s : String) : String :=
  ⟨s.data.map (fun c => if hostileChar c then '_' else c)⟩

/-- Index of the last occurrence of a character, as an Int, with -1 when the
character is absent (Python str.rfind). -/
def rfindChar (c : Char) : List Char → Int
  | [] => -1
  | x :: xs =>
    let r := rfindChar c xs
    if r ≥ 0 then r + 1 else if x == c then 0 else -1

/-- True when some index k with lo ≤ k < hi holds a character other than a
dot (the scan in the CPython splitext loop). -/
def hasNonDotBetween (l : List Char) (lo hi : Int) : Bool :=
  (List.range l.length).any
    (fun k => decide (lo ≤ (k : Int)) && decide ((k : Int) < hi) && (l.getD k '.' != '.'))

/-- Python os.path.splitext for POSIX paths: split off the extension that
starts at the last dot of the final path component, unless that component
consists only of leading dots up to that point. -/
def splitext (p : String) : String × String :=
  let l := p.data
  let sepIndex := rfindChar '/' l
  let dotIndex := rfindChar '.' l
  if sepIndex < dotIndex ∧ hasNonDotBetween l (sepIndex + 1) dotIndex = true then
    (⟨l.take dotIndex.toNat⟩, ⟨l.drop dotIndex.toNat⟩)
  else (p, "")

/-- Bool substring test: sub occurs somewhere in s. -/
def hasSubstr (s sub : String) : Bool :=
  (List.range (s.data.length + 1)).any (fun i => sub.data.isPrefixOf (s.data.drop i))

/-! ## The URL validator (app.py lines 18-24)

The pattern
  (https?://)?(www\.)?(youtube|youtu|youtube-nocookie)\.(com|be)/
  (watch\?v=|embed/|v/|shorts/|.+\?v=)?([^&=%\?]\x7b11\x7d)
is applied with re.match, which anchors at the start of the string only:
acceptance means some prefix of the input matches.  The matcher below is a
direct transliteration using continuation-passing alternation, which for a
Boolean result coincides with backtracking semantics. -/

/-- Consume an exact literal and pass the rest to the continuation. -/
def litK (lit : String) (k : List Char → Bool) (s : List Char) : Bool :=
  lit.data.isPrefixOf s && k (s.drop lit.data.length)

/-- A character allowed inside the 11-character token: the regex class
excluding the ampersand, equals sign, percent sign and question mark. -/
def tokChar (c : Char) : Bool :=
  !(c == '&' || c == '=' || c == '%' || c == '?')

/-- Consume exactly n token characters, then continue. -/
def tokN : Nat → (List Char → Bool) → List Char → Bool
  | 0, k, s => k s
  | _ + 1, _, [] => false
  | n + 1, k, c :: cs => tokChar c && tokN n k cs

/-- The regex dot: any character except a newline. -/
def dotChar (c : Char) : Bool := c != '\n'

/-- One or more regex-dot characters, then the continuation (backtracking
over every possible split). -/
def dotPlusThen (k : List Char → Bool) : List Char → Bool
  | [] => false
  | c :: cs => dotChar c && (k cs || dotPlusThen k cs)

/-- The eleven-character opaque video token. -/
def token11 : List Char → Bool := tokN 11 (fun _ => true)

/-- The path-shape alternation watch\?v= | embed/ | v/ | shorts/ | .+\?v= . -/
def pathShapeK (k : List Char → Bool) (s : List Char) : Bool :=
  litK "watch?v=" k s || litK "embed/" k s || litK "v/" k s || litK "shorts/" k s ||
    dotPlusThen (litK "?v=" k) s

/-- After the slash following the domain: an optional path shape, then the
11-character token; anything may follow (re.match does not anchor the end). -/
def afterSlash (s : List Char) : Bool :=
  pathShapeK token11 s || token11 s

/-- After the top-level domain. -/
def afterTld : List Char → Bool := litK "/" afterSlash

/-- The (com|be) alternation. -/
def afterDot (s : List Char) : Bool :=
  litK "com" afterTld s || litK "be" afterTld s

/-- The dot between host and top-level domain. -/
def afterHost : List Char → Bool := litK "." afterDot

/-- The (youtube|youtu|youtube-nocookie) alternation. -/
def afterWww (s : List Char) : Bool :=
  litK "youtube" afterHost s || litK "youtu" afterHost s || litK "youtube-nocookie" afterHost s

/-- The optional www. group. -/
def afterScheme (s : List Char) : Bool :=
  litK "www." afterWww s || afterWww s

/-- The whole anchored pattern, applied at the start of the string. -/
def ytMatches (u : String) : Bool :=
  litK "https://" afterScheme u.data || litK "http://" afterScheme u.data || afterScheme u.data

/-- app.py is_valid_youtube_url: the argument is coerced with `url or ""`
(absent input becomes the empty string) and matched against the pattern. -/
def is_valid_youtube_url (url : Option String) : Bool :=
  ytMatches (url.getD "")

/-! ## The metadata fetcher (app.py lines 58-90)

Only the raw fields that influence admission, the derived classifiers and
the sort key are modelled (the remaining fields of the descriptor dict are
copied verbatim from the raw entry and touched by no claim).  Bitrates are
modelled as integers. -/

/-- One raw format entry from the extraction engine; every field may be
absent, as under dict.get. -/
structure RawFormat where
  format_id : Option String := none
  ext : Option String := none
  height : Option Int := none
  vcodec : Option String := none
  acodec : Option String := none
  abr : Option Int := none
deriving DecidableEq, Repr

/-- The admission filter on the container extension (app.py line 80); a
missing extension is not in the tuple, as in Python. -/
def allowedExt (e : Option String) : Bool :=
  e == some "mp4" || e == some "webm" || e == some "m4a" || e == some "mp3" || e == some "opus"

/-- A FormatDescriptor as built in the video_info loop. -/
structure Fmt where
  format_id : Option String
  ext : Option String
  height : Option Int
  vcodec : Option String
  acodec : Option String
  abr : Option Int
  progressive : Bool
  audio_only : Bool
  video_only : Bool
deriving DecidableEq, Repr

/-- Descriptor construction (app.py lines 60-79).  The comparisons follow
Python: a missing codec (None) is different from the sentinel string
"none", so None != "none" is true. -/
def mkFmt (f : RawFormat) : Fmt :=
  { format_id := f.format_id
    ext := f.ext
    height := f.height
    vcodec := f.vcodec
    acodec := f.acodec
    abr := f.abr
    progressive := f.vcodec != some "none" && f.acodec != some "none"
    audio_only := f.vcodec == some "none" && f.acodec != some "none"
    video_only := f.vcodec != some "none" && f.acodec == some "none" }

/-- The composite sort key (app.py lines 84-88): group, negated height,
negated audio bitrate, with missing height or abr treated as 0 by the
Python `or 0`. -/
def sort_key (f : Fmt) : Int × Int × Int :=
  let group : Int := if f.progressive then 0 else if f.video_only then 1 else 2
  (group, -(f.height.getD 0), -(f.abr.getD 0))

/-- Lexicographic order on Python triples of integers. -/
def tupLe (x y : Int × Int × Int) : Prop :=
  x.1 < y.1 ∨ (x.1 = y.1 ∧ (x.2.1 < y.2.1 ∨ (x.2.1 = y.2.1 ∧ x.2.2 ≤ y.2.2)))

instance tupLeDec : ∀ x y, Decidable (tupLe x y) := fun x y => by
  unfold tupLe; exact inferInstance

/-- Comparison of two descriptors by their sort keys. -/
def keyLe (a b : Fmt) : Prop := tupLe (sort_key a) (sort_key b)

instance keyLeDec : DecidableRel keyLe := fun a b => by
  unfold keyLe; exact inferInstance

instance : IsTotal Fmt keyLe := ⟨fun a b => by unfold keyLe tupLe; omega⟩

instance : IsTrans Fmt keyLe := ⟨fun a b c h1 h2 => by unfold keyLe tupLe at h1 h2 ⊢; omega⟩

/-- list.sort with the key function is a stable sort by the key; insertion
sort with keyLe is the (unique) stable sort by that key. -/
def sortFormats (l : List Fmt) : List Fmt := l.insertionSort keyLe

/-- The format list returned by /api/videoinfo (app.py lines 58-90): build
a descriptor for each raw entry, retain those with an allowed container
extension, and sort by the composite key. -/
def video_info_formats (raw : List RawFormat) : List Fmt :=
  sortFormats ((raw.map mkFmt).filter (fun f => allowedExt f.ext))

/-- Number of the three classifiers that hold on a descriptor. -/
def classCount (f : Fmt) : Nat :=
  (if f.progressive then 1 else 0) + (if f.video_only then 1 else 0) +
    (if f.audio_only then 1 else 0)

/-! ## The download job controller (app.py lines 104-165)

The filesystem is modelled as the list of existing paths.  The external
extraction engine is an oracle value: it either raises, or finishes with
metadata, the path reported by prepare_filename, and the list of files it
wrote.  Streaming and file removal can each fail; a removal failure is the
swallowed exception of remove_file.  The @after_this_request callback runs
when the response of the request is finalised, whether that response is
the attachment or the 500 produced by the except branch, so the model
applies the registered cleanup in both cases. -/

/-- Existing paths on disk. -/
abbrev FileSys := List String

/-- os.remove inside remove_file, guarded by os.path.exists. -/
def removePath (fs : FileSys) (p : String) : FileSys :=
  fs.filter (fun q => q != p)

/-- The slice of extract_info metadata the controller reads. -/
structure DlInfo where
  title : Option String := none
deriving DecidableEq, Repr

/-- One run of the extraction engine in download mode.  written lists the
files the run created (an engine that raises may still have written
partial output). -/
inductive EngineRun where
  | raises (msg : String) (written : List String)
  | finishes (info : DlInfo) (reported : String) (written : List String)
deriving DecidableEq, Repr

/-- The two response shapes of the download view. -/
inductive HttpResp where
  | json (code : Nat) (error : String)
  | attachment (path : String) (downloadName : String)
deriving DecidableEq, Repr

/-- Observable outcome of one download request: the response, the final
filesystem after any registered cleanup ran, whether a job identifier was
allocated, whether the engine was invoked, and the format spec passed to
it. -/
structure DlResult where
  resp : HttpResp
  fs : FileSys
  uidUsed : Bool
  engineCalled : Bool
  engineFormat : Option String
deriving DecidableEq, Repr

/-- Query-string arguments of the download request; a missing argument is
the empty string under request.args.get. -/
structure DlRequest where
  url : Option String := none
  format_id : Option String := none
deriving DecidableEq, Repr

/-- The default composite format specification (app.py line 115). -/
def defaultFormatSpec : String := "bestvideo+bestaudio/best"

/-- The 500 message for a failed remux-binary probe (app.py line 118). -/
def ffmpegMissingMsg : String :=
  "⚠️ ffmpeg is not installed or not in PATH. Please install ffmpeg."

/-- Python `info.get("title") or "video"`: None and the empty string are
falsy. -/
def pyTitleOr (t : Option String) : String :=
  match t with
  | none => "video"
  | some s => if s = "" then "video" else s

/-- The attachment extension (app.py line 150): the extension of the
resolved path without its leading dot, or "mp4" when that is empty. -/
def extOfPath (p : String) : String :=
  let e := pyLstripDot (splitext p).2
  if e = "" then "mp4" else e

/-- Output-path resolution (app.py lines 138-143): the reported path if it
exists, else the single fallback with the extension replaced by .mp4 if
that exists, else the (nonexistent) reported path. -/
def resolvePath (fs : FileSys) (reported : String) : String :=
  if reported ∈ fs then reported
  else
    let alt := (splitext reported).1 ++ ".mp4"
    if alt ∈ fs then alt else reported

/-- The download view (app.py lines 104-165).  ffmpegOk is the outcome of
the check_ffmpeg probe, engine the behaviour of the extraction engine,
sendOutcome none for a completed send_file and some message for an
exception raised by it, removeOk false when os.remove in the cleanup
callback raises (the exception is swallowed). -/
def download (req : DlRequest) (ffmpegOk : Bool) (engine : EngineRun)
    (sendOutcome : Option String) (removeOk : Bool) (fs0 : FileSys) : DlResult :=
  let url := pyStrip (req.url.getD "")
  let format_id := pyStrip (req.format_id.getD "")
  if url = "" then ⟨.json 400 "No URL provided", fs0, false, false, none⟩
  else if ¬ is_valid_youtube_url (some url) then
    ⟨.json 400 "Invalid YouTube URL", fs0, false, false, none⟩
  else
    let format_spec := if format_id ≠ "" then format_id else defaultFormatSpec
    if ¬ ffmpegOk then ⟨.json 500 ffmpegMissingMsg, fs0, false, false, none⟩
    else
      match engine with
      | .raises msg written =>
        ⟨.json 500 ("Download failed: " ++ msg), fs0 ++ written, true, true, some format_spec⟩
      | .finishes info reported written =>
        let fs1 := fs0 ++ written
        let final_path := resolvePath fs1 reported
        if final_path ∉ fs1 then
          ⟨.json 500 "File not found after download", fs1, true, true, some format_spec⟩
        else
          let title := pyStrip (pyTitleOr info.title)
          let safe_title := sanitizeTitle title
          let ext := extOfPath final_path
          let fs2 := if removeOk then removePath fs1 final_path else fs1
          match sendOutcome with
          | none =>
            ⟨.attachment final_path (safe_title ++ "." ++ ext), fs2, true, true, some format_spec⟩
          | some e =>
            ⟨.json 500 ("Download failed: " ++ e), fs2, true, true, some format_spec⟩

/-- A concrete valid watch URL used in witnesses and counterexamples. -/
def exampleUrl : String := "https://www.youtube.com/watch?v=abcdefghijk"

/-- A request carrying the concrete valid URL and no format identifier. -/
def exampleReq : DlRequest := { url := some exampleUrl }

/-- A request carrying the concrete valid URL and a format identifier with
surrounding whitespace. -/
def exampleReq2 : DlRequest := { url := some exampleUrl, format_id := some " 137 " }

/-- A progressive mp4 raw entry used as a witness input. -/
def exampleRaw : RawFormat :=
  { format_id := some "18", ext := some "mp4", height := some 360,
    vcodec := some "avc1.42001E", acodec := some "mp4a.40.2", abr := some 96 }

/-! ## Helper lemmas -/

theorem tupLe_refl (x : Int × Int × Int) : tupLe x x := by
  unfold tupLe; omega

theorem classCount_mkFmt (r : RawFormat) :
    classCount (mkFmt r) =
      if r.vcodec = some "none" ∧ r.acodec = some "none" then 0 else 1 := by
  by_cases hv : r.vcodec = some "none" <;> by_cases ha : r.acodec = some "none" <;>
    simp [classCount, mkFmt, hv, ha]

/-- Membership in the sorted output equals membership before sorting. -/
theorem mem_sortFormats {f : Fmt} {l : List Fmt} : f ∈ sortFormats l ↔ f ∈ l :=
  List.mem_insertionSort keyLe

/-- Inserting an element whose key is k prepends it to the key-k sublist. -/
theorem filter_orderedInsert_eq_key (x : Fmt) (k : Int × Int × Int) (hx : sort_key x = k) :
    ∀ s : List Fmt,
      (s.orderedInsert keyLe x).filter (fun f => decide (sort_key f = k)) =
        x :: s.filter (fun f => decide (sort_key f = k))
  | [] => by simp [List.orderedInsert, hx]
  | y :: ys => by
    by_cases h : keyLe x y
    · simp [List.orderedInsert, h, hx]
    · have hy : ¬ sort_key y = k := by
        intro hk
        exact h (by unfold keyLe; rw [hx, hk]; exact tupLe_refl k)
      simp only [List.orderedInsert, if_neg h, List.filter_cons,
        filter_orderedInsert_eq_key x k hx ys]
      simp [hy]

/-- Inserting an element whose key is not k leaves the key-k sublist alone. -/
theorem filter_orderedInsert_ne_key (x : Fmt) (k : Int × Int × Int) (hx : ¬ sort_key x = k) :
    ∀ s : List Fmt,
      (s.orderedInsert keyLe x).filter (fun f => decide (sort_key f = k)) =
        s.filter (fun f => decide (sort_key f = k))
  | [] => by simp [List.orderedInsert, hx]
  | y :: ys => by
    by_cases h : keyLe x y
    · simp [List.orderedInsert, h, hx]
    · simp only [List.orderedInsert, if_neg h, List.filter_cons,
        filter_orderedInsert_ne_key x k hx ys]

/-- Stability of the sort: for every key value, the sublist of descriptors
with that key is unchanged by sorting. -/
theorem filter_sortFormats (k : Int × Int × Int) :
    ∀ l : List Fmt,
      (sortFormats l).filter (fun f => decide (sort_key f = k)) =
        l.filter (fun f => decide (sort_key f = k))
  | [] => rfl
  | x :: xs => by
    by_cases hx : sort_key x = k
    · simp only [sortFormats, List.insertionSort,
        filter_orderedInsert_eq_key x k hx (List.insertionSort keyLe xs)]
      rw [show List.insertionSort keyLe xs = sortFormats xs from rfl,
        filter_sortFormats k xs]
      simp [hx, List.filter_cons]
    · simp only [sortFormats, List.insertionSort,
        filter_orderedInsert_ne_key x k hx (List.insertionSort keyLe xs)]
      rw [show List.insertionSort keyLe xs = sortFormats xs from rfl,
        filter_sortFormats k xs]
      simp [hx, List.filter_cons]

/-- A removed path is no longer on disk. -/
theorem not_mem_removePath (fs : FileSys) (p : String) : p ∉ removePath fs p := by
  simp [removePath]

/-- The response of a fully successful download: the resolved file is sent
as an attachment named by the sanitised, stripped title and the extension
of the resolved path. -/
theorem download_success_resp (req : DlRequest) (info : DlInfo) (reported : String)
    (written : List String) (rm : Bool) (fs0 : FileSys)
    (hurl : pyStrip (req.url.getD "") ≠ "")
    (hvalid : is_valid_youtube_url (some (pyStrip (req.url.getD ""))) = true)
    (hres : resolvePath (fs0 ++ written) reported ∈ fs0 ++ written) :
    (download req true (.finishes info reported written) none rm fs0).resp =
      .attachment (resolvePath (fs0 ++ written) reported)
        (sanitizeTitle (pyStrip (pyTitleOr info.title)) ++ "." ++
          extOfPath (resolvePath (fs0 ++ written) reported)) := by
  simp only [download]
  rw [if_neg hurl, if_neg (by simp [hvalid]), if_neg (by simp),
    if_neg (not_not_intro hres)]

/-- The final filesystem of a fully resolved download whose cleanup
removal succeeds: the resolved file has been removed. -/
theorem download_resolved_fs (req : DlRequest) (info : DlInfo) (reported : String)
    (written : List String) (send : Option String) (fs0 : FileSys)
    (hurl : pyStrip (req.url.getD "") ≠ "")
    (hvalid : is_valid_youtube_url (some (pyStrip (req.url.getD ""))) = true)
    (hres : resolvePath (fs0 ++ written) reported ∈ fs0 ++ written) :
    (download req true (.finishes info reported written) send true fs0).fs =
      removePath (fs0 ++ written) (resolvePath (fs0 ++ written) reported) := by
  simp only [download]
  rw [if_neg hurl, if_neg (by simp [hvalid]), if_neg (by simp),
    if_neg (not_not_intro hres)]
  cases send <;> rfl

/-! ## Claims -/

/-- C3 counterexample: the claim states that the validator returns false
for a token of length 12, but the pattern is applied with re.match, which
anchors only at the start of the string; a 12-character token matches
through its first 11 characters, so the validator returns true on it. -/
theorem C3_counterexample :
    is_valid_youtube_url (some "https://www.youtube.com/watch?v=abcdefghijkl") = true := by
  decide

/-- C3 (amended): isValid accepts exactly the strings with a prefix
matching a recognised video-host domain, an optional path shape and at
least 11 consecutive non-delimiter characters; it rejects the empty
string, a 10-character token and a non-video-host domain, but a token of
length 12 or more is accepted, the first 11 characters forming the token
and the rest being ignored. -/
theorem C3_amended :
    is_valid_youtube_url (some "") = false ∧
    is_valid_youtube_url (some "https://www.youtube.com/watch?v=abcdefghij") = false ∧
    is_valid_youtube_url (some "https://www.youtube.com/watch?v=abcdefghijk") = true ∧
    is_valid_youtube_url (some "https://www.youtube.com/watch?v=abcdefghijkl") = true ∧
    is_valid_youtube_url (some "https://www.youtube.com/watch?v=abcdefghij&x=1") = false ∧
    is_valid_youtube_url (some "https://www.youtube.com/watch?v=abcdefghijk&t=1") = true ∧
    is_valid_youtube_url (some "https://www.vimeo.com/watch?v=abcdefghijk") = false ∧
    is_valid_youtube_url (some "https://www.youtube.com/embed/abcdefghijk") = true ∧
    is_valid_youtube_url (some "https://youtube.com/shorts/abcdefghijk") = true ∧
    is_valid_youtube_url (some "https://youtu.be/abcdefghijk") = true := by
  decide

/-- C9: called on absent input the validator returns false instead of
raising, because the input is coerced to the empty string before the
pattern is applied. -/
theorem C9_validator_total_on_none :
    is_valid_youtube_url none = false ∧
    is_valid_youtube_url none = is_valid_youtube_url (some "") := by
  decide

/-- C2 counterexample: the claim states that every admitted descriptor has
exactly one true classifier, but the admission filter tests only the
container extension; a raw entry with ext mp4 whose vcodec and acodec are
both the literal string "none" is admitted with all three classifiers
false. -/
theorem C2_counterexample :
    ¬ ∀ f ∈ video_info_formats
        [{ ext := some "mp4", vcodec := some "none", acodec := some "none" }],
      classCount f = 1 := by
  decide

/-- C2 (amended): every descriptor admitted into the result set has its
container extension in the allowed set; exactly one of the three
classifiers holds unless both codec fields are the literal string "none",
in which case none of the three holds. -/
theorem C2_amended (raw : List RawFormat) (f : Fmt) (hf : f ∈ video_info_formats raw) :
    allowedExt f.ext = true ∧
    (¬ (f.vcodec = some "none" ∧ f.acodec = some "none") → classCount f = 1) ∧
    ((f.vcodec = some "none" ∧ f.acodec = some "none") → classCount f = 0) := by
  rw [video_info_formats, mem_sortFormats] at hf
  obtain ⟨hmem, hext⟩ := List.mem_filter.1 hf
  obtain ⟨r, _, rfl⟩ := List.mem_map.1 hmem
  refine ⟨hext, fun h => ?_, fun h => ?_⟩
  · rw [classCount_mkFmt, if_neg (by simpa [mkFmt] using h)]
  · rw [classCount_mkFmt, if_pos (by simpa [mkFmt] using h)]

theorem C2_amended_witness : classCount (mkFmt exampleRaw) = 1 :=
  (C2_amended [exampleRaw] (mkFmt exampleRaw) (by decide)).2.1 (by decide)

/-- C5: the retained format list is sorted by the composite key
(group, -height, -abr); the sort is idempotent, and stable in the sense
that for every key value the subsequence of descriptors carrying that key
is exactly the one of the input list. -/
theorem C5_sort_properties :
    (∀ l : List Fmt, (sortFormats l).Sorted keyLe) ∧
    (∀ l : List Fmt, sortFormats (sortFormats l) = sortFormats l) ∧
    (∀ (l : List Fmt) (k : Int × Int × Int),
      (sortFormats l).filter (fun f => decide (sort_key f = k)) =
        l.filter (fun f => decide (sort_key f = k))) := by
  refine ⟨fun l => List.sorted_insertionSort keyLe l, fun l => ?_, fun l k => filter_sortFormats k l⟩
  exact List.Sorted.insertionSort_eq (List.sorted_insertionSort keyLe l)

/-- C7: when the remux-binary probe fails on a request with a valid URL,
the view answers 500 with the dependency message, which mentions
installation, and this happens before a job identifier is allocated,
before the engine is invoked, and without touching the filesystem. -/
theorem C7_missing_dependency (req : DlRequest) (eng : EngineRun) (send : Option String)
    (rm : Bool) (fs0 : FileSys)
    (hurl : pyStrip (req.url.getD "") ≠ "")
    (hvalid : is_valid_youtube_url (some (pyStrip (req.url.getD ""))) = true) :
    download req false eng send rm fs0 = ⟨.json 500 ffmpegMissingMsg, fs0, false, false, none⟩ ∧
    hasSubstr ffmpegMissingMsg "install" = true := by
  refine ⟨?_, by decide⟩
  simp only [download]
  rw [if_neg hurl, if_neg (by simp [hvalid]), if_pos (by simp)]

theorem C7_witness :
    download exampleReq false (.raises "boom" []) none true [] =
      ⟨.json 500 ffmpegMissingMsg, [], false, false, none⟩ ∧
    hasSubstr ffmpegMissingMsg "install" = true :=
  C7_missing_dependency exampleReq (.raises "boom" []) none true [] (by decide) (by decide)

/-- C8: the format specification handed to the engine is the trimmed
caller-supplied identifier when that is non-empty, and the default
composite spec otherwise, for every engine and streaming outcome. -/
theorem C8_format_spec (req : DlRequest) (eng : EngineRun) (send : Option String)
    (rm : Bool) (fs0 : FileSys)
    (hurl : pyStrip (req.url.getD "") ≠ "")
    (hvalid : is_valid_youtube_url (some (pyStrip (req.url.getD ""))) = true) :
    (download req true eng send rm fs0).engineFormat =
      some (if pyStrip (req.format_id.getD "") ≠ "" then pyStrip (req.format_id.getD "")
        else defaultFormatSpec) := by
  simp only [download]
  rw [if_neg hurl, if_neg (by simp [hvalid]), if_neg (by simp)]
  cases eng with
  | raises m w => rfl
  | finishes i r w =>
    by_cases h : resolvePath (fs0 ++ w) r ∈ fs0 ++ w
    · cases send <;> simp [h]
    · simp [h]

theorem C8_witness :
    (download exampleReq2 true (.raises "boom" []) none true []).engineFormat =
      some (if pyStrip (exampleReq2.format_id.getD "") ≠ ""
        then pyStrip (exampleReq2.format_id.getD "") else defaultFormatSpec) :=
  C8_format_spec exampleReq2 (.raises "boom" []) none true [] (by decide) (by decide)

/-- C1 counterexample: the claim states that every file produced by the
extraction step is deleted when the response finishes, but the cleanup
callback is registered only after path resolution succeeds; here the
engine produced downloads/u1.mkv while reporting downloads/u1.webm, the
view answers 500 after extraction, and the produced file survives the
request. -/
theorem C1_counterexample :
    (download exampleReq true (.finishes {} "downloads/u1.webm" ["downloads/u1.mkv"])
        none true []).resp = .json 500 "File not found after download" ∧
    (download exampleReq true (.finishes {} "downloads/u1.webm" ["downloads/u1.mkv"])
        none true []).fs = ["downloads/u1.mkv"] := by
  decide

/-- C1 (amended): the delete-on-exit invariant holds for the resolved
file: whenever the reported path or its .mp4 fallback exists after
extraction and the removal call succeeds, the resolved file is gone from
the filesystem once the response finishes, for every streaming outcome;
and a removal failure is swallowed: the response never depends on whether
the removal succeeded.  A file produced at any other path is not cleaned
up. -/
theorem C1_amended :
    (∀ (req : DlRequest) (info : DlInfo) (reported : String) (written : List String)
        (send : Option String) (fs0 : FileSys),
      pyStrip (req.url.getD "") ≠ "" →
      is_valid_youtube_url (some (pyStrip (req.url.getD ""))) = true →
      resolvePath (fs0 ++ written) reported ∈ fs0 ++ written →
      resolvePath (fs0 ++ written) reported ∉
        (download req true (.finishes info reported written) send true fs0).fs) ∧
    (∀ (req : DlRequest) (ffm : Bool) (eng : EngineRun) (send : Option String) (fs0 : FileSys),
      (download req ffm eng send true fs0).resp = (download req ffm eng send false fs0).resp) := by
  constructor
  · intro req info reported written send fs0 hurl hvalid hres
    rw [download_resolved_fs req info reported written send fs0 hurl hvalid hres]
    exact not_mem_removePath _ _
  · intro req ffm eng send fs0
    by_cases h1 : pyStrip (req.url.getD "") = ""
    · simp [download, h1]
    · by_cases h2 : is_valid_youtube_url (some (pyStrip (req.url.getD ""))) = true
      · cases ffm
        · simp [download, h1, h2]
        · cases eng with
          | raises m w => simp [download, h1, h2]
          | finishes i r w =>
            by_cases h3 : resolvePath (fs0 ++ w) r ∈ fs0 ++ w
            · cases send <;> simp [download, h1, h2, h3]
            · simp [download, h1, h2, h3]
      · simp [download, h1, h2]

theorem C1_amended_witness :
    resolvePath ([] ++ ["downloads/u2.webm"]) "downloads/u2.webm" ∉
      (download exampleReq true (.finishes {} "downloads/u2.webm" ["downloads/u2.webm"])
        none true []).fs :=
  C1_amended.1 exampleReq {} "downloads/u2.webm" ["downloads/u2.webm"] none []
    (by decide) (by decide) (by decide)

/-- C4: after a successful extraction whose reported path is missing,
exactly one fallback is probed -- the same base with its extension
replaced by .mp4; when the fallback exists it becomes the resolved path,
and when neither exists the view answers 500 with the error message
"File not found after download", with a single engine invocation and the
written files left untouched. -/
theorem C4_artifact_missing :
    (∀ (fs : FileSys) (reported : String),
      reported ∉ fs → (splitext reported).1 ++ ".mp4" ∈ fs →
      resolvePath fs reported = (splitext reported).1 ++ ".mp4") ∧
    (∀ (req : DlRequest) (info : DlInfo) (reported : String) (written : List String)
        (send : Option String) (rm : Bool) (fs0 : FileSys),
      pyStrip (req.url.getD "") ≠ "" →
      is_valid_youtube_url (some (pyStrip (req.url.getD ""))) = true →
      reported ∉ fs0 ++ written →
      (splitext reported).1 ++ ".mp4" ∉ fs0 ++ written →
      download req true (.finishes info reported written) send rm fs0 =
        ⟨.json 500 "File not found after download", fs0 ++ written, true, true,
          some (if pyStrip (req.format_id.getD "") ≠ "" then pyStrip (req.format_id.getD "")
            else defaultFormatSpec)⟩) := by
  constructor
  · intro fs reported h1 h2
    simp only [resolvePath]
    rw [if_neg h1, if_pos h2]
  · intro req info reported written send rm fs0 hurl hvalid h1 h2
    have hr : resolvePath (fs0 ++ written) reported = reported := by
      simp only [resolvePath]
      rw [if_neg h1, if_neg h2]
    simp only [download]
    rw [if_neg hurl, if_neg (by simp [hvalid]), if_neg (by simp), hr, if_pos h1]

theorem C4_witness :
    resolvePath ["downloads/u3.mp4"] "downloads/u3.webm" =
      (splitext "downloads/u3.webm").1 ++ ".mp4" ∧
    download exampleReq true (.finishes {} "downloads/u7.webm" []) none true [] =
      ⟨.json 500 "File not found after download", [] ++ [], true, true,
        some (if pyStrip (exampleReq.format_id.getD "") ≠ ""
          then pyStrip (exampleReq.format_id.getD "") else defaultFormatSpec)⟩ :=
  ⟨C4_artifact_missing.1 ["downloads/u3.mp4"] "downloads/u3.webm" (by decide) (by decide),
   C4_artifact_missing.2 exampleReq {} "downloads/u7.webm" [] none true []
     (by decide) (by decide) (by decide) (by decide)⟩

/-- C6 counterexample: the claim derives the filename from the raw
metadata title, but the code strips surrounding whitespace first: for the
title " My Video " the attachment is named "My Video.mp4", while the
derivation as claimed keeps the spaces. -/
theorem C6_counterexample :
    (download exampleReq true (.finishes { title := some " My Video " } "downloads/u5.mp4"
        ["downloads/u5.mp4"]) none true []).resp =
      .attachment "downloads/u5.mp4" "My Video.mp4" ∧
    sanitizeTitle " My Video " ++ "." ++ extOfPath "downloads/u5.mp4" = " My Video .mp4" ∧
    (" My Video .mp4" : String) ≠ "My Video.mp4" := by
  decide

/-- C6 (amended): the safe download filename is derived from the
whitespace-trimmed metadata title by replacing each filesystem-hostile
character with an underscore, then appending the extension of the
resolved path, or mp4 when it has none; in particular the title
My:Video/Clip? becomes My_Video_Clip_ before the extension is appended. -/
theorem C6_amended :
    sanitizeTitle "My:Video/Clip?" = "My_Video_Clip_" ∧
    (∀ (req : DlRequest) (info : DlInfo) (reported : String) (written : List String)
        (rm : Bool) (fs0 : FileSys),
      pyStrip (req.url.getD "") ≠ "" →
      is_valid_youtube_url (some (pyStrip (req.url.getD ""))) = true →
      resolvePath (fs0 ++ written) reported ∈ fs0 ++ written →
      (download req true (.finishes info reported written) none rm fs0).resp =
        .attachment (resolvePath (fs0 ++ written) reported)
          (sanitizeTitle (pyStrip (pyTitleOr info.title)) ++ "." ++
            extOfPath (resolvePath (fs0 ++ written) reported))) := by
  refine ⟨by decide, ?_⟩
  intro req info reported written rm fs0 hurl hvalid hres
  exact download_success_resp req info reported written rm fs0 hurl hvalid hres

theorem C6_amended_witness :
    (download exampleReq true (.finishes { title := some " My Video " } "downloads/u5.mp4"
        ["downloads/u5.mp4"]) none true []).resp =
      .attachment (resolvePath ([] ++ ["downloads/u5.mp4"]) "downloads/u5.mp4")
        (sanitizeTitle (pyStrip (pyTitleOr (some " My Video "))) ++ "." ++
          extOfPath (resolvePath ([] ++ ["downloads/u5.mp4"]) "downloads/u5.mp4")) :=
  C6_amended.2 exampleReq { title := some " My Video " } "downloads/u5.mp4"
    ["downloads/u5.mp4"] true [] (by decide) (by decide) (by decide)

/-- C10: when the metadata title is missing or empty, the filename base is
the literal string video, left unchanged by sanitisation, before the
extension is appended. -/
theorem C10_default_title (req : DlRequest) (info : DlInfo) (reported : String)
    (written : List String) (rm : Bool) (fs0 : FileSys)
    (hurl : pyStrip (req.url.getD "") ≠ "")
    (hvalid : is_valid_youtube_url (some (pyStrip (req.url.getD ""))) = true)
    (htitle : info.title = none ∨ info.title = some "")
    (hres : resolvePath (fs0 ++ written) reported ∈ fs0 ++ written) :
    (download req true (.finishes info reported written) none rm fs0).resp =
      .attachment (resolvePath (fs0 ++ written) reported)
        ("video" ++ "." ++ extOfPath (resolvePath (fs0 ++ written) reported)) := by
  rw [download_success_resp req info reported written rm fs0 hurl hvalid hres]
  have hv : sanitizeTitle (pyStrip (pyTitleOr info.title)) = "video" := by
    rcases htitle with h | h <;> rw [h] <;> decide
  rw [hv]

theorem C10_witness :
    (download exampleReq true (.finishes {} "downloads/u6.webm" ["downloads/u6.mp4"])
        none true []).resp =
      .attachment (resolvePath ([] ++ ["downloads/u6.mp4"]) "downloads/u6.webm")
        ("video" ++ "." ++
          extOfPath (resolvePath ([] ++ ["downloads/u6.mp4"]) "downloads/u6.webm")) :=
  C10_default_title exampleReq {} "downloads/u6.webm" ["downloads/u6.mp4"] true []
    (by decide) (by decide) (Or.inl rfl) (by decide)

end YtApp
